import Mathlib

/-!
Shallow embedding of the Perceval OPNFV Functest backend
(`src/perceval/backends/opnfv/functest.py`).

The embedding models:
  * JSON values as decoded by Python's `json.loads`, and the Python-level
    operations the backend performs on them (subscripting, iteration,
    `str()`, `>=`, `+ 1`);
  * datetimes as (naive wall-clock seconds since the epoch, optional UTC
    offset), which is enough for `datetime_to_utc`, `strftime` and
    `timestamp()` as used by the code;
  * `FunctestClient.results` as a function from a base URL, a query window
    and a list of successive HTTP response bodies to a trace of the
    requests issued, the bodies yielded and how the loop ended;
  * `Functest.fetch_items` / `Functest.parse_json` and the metadata
    extractors `metadata_id` / `metadata_updated_on`.

External collaborators (the `grimoirelab_toolkit` datetime/URI helpers and
the perceval-core normalization loop) are not under `src/`; their models
carry a doc comment saying what they stand for.
-/

/-- JSON values as decoded by `json.loads`. Numbers are modelled as
integers: every numeric field the code reads (`pagination` counters,
`_id` values) is integral. Object fields are an association list with
distinct keys (Python dicts cannot hold duplicates). -/
inductive Json where
  | null
  | bool (b : Bool)
  | num (n : Int)
  | str (s : String)
  | arr (elems : List Json)
  | obj (fields : List (String × Json))

/-- The Python exceptions the modelled code paths can raise. -/
inductive PyError where
  /-- `KeyError` from subscripting a dict with an absent key. -/
  | keyError (key : String)
  /-- `TypeError` from subscripting, iterating or comparing an
  unsuitable value. -/
  | typeError
  /-- `json.JSONDecodeError` from `json.loads` on text that is not JSON. -/
  | jsonDecodeError
  /-- `InvalidDateError` from `grimoirelab_toolkit.datetime.str_to_datetime`
  on an unparsable timestamp string. -/
  | invalidDate
deriving DecidableEq

/-- A raw HTTP response body: `some j` stands for a text whose JSON
decoding is `j`; `none` stands for a body that is not valid JSON. -/
abbrev RawPage := Option Json

/-- Model of `json.loads` on a raw body. -/
def json_loads : RawPage → Except PyError Json
  | some j => .ok j
  | none => .error .jsonDecodeError

/-- Python subscripting `j[k]` with a string key: defined on dicts
(`KeyError` when absent), `TypeError` on every other value. -/
def pyGetItem (j : Json) (k : String) : Except PyError Json :=
  match j with
  | .obj fields =>
    match fields.lookup k with
    | some v => .ok v
    | none => .error (.keyError k)
  | _ => .error .typeError

/-- The apostrophe character Python's `repr` puts around strings. -/
def pyQuote : String := String.singleton (Char.ofNat 39)

mutual

/-- Python `repr` of a decoded JSON value. -/
def pyRepr : Json → String
  | .null => "None"
  | .bool b => if b then "True" else "False"
  | .num n => toString n
  | .str s => pyQuote ++ s ++ pyQuote
  | .arr elems => "[" ++ pyReprList elems ++ "]"
  | .obj fields => "\x7b" ++ pyReprFields fields ++ "\x7d"

/-- Comma-separated `repr`s of list elements. -/
def pyReprList : List Json → String
  | [] => ""
  | [v] => pyRepr v
  | v :: vs => pyRepr v ++ ", " ++ pyReprList vs

/-- Comma-separated `repr`s of dict entries. -/
def pyReprFields : List (String × Json) → String
  | [] => ""
  | [kv] => pyQuote ++ kv.1 ++ pyQuote ++ ": " ++ pyRepr kv.2
  | kv :: kvs =>
    pyQuote ++ kv.1 ++ pyQuote ++ ": " ++ pyRepr kv.2 ++ ", " ++ pyReprFields kvs

end

/-- Python `str()` of a decoded JSON value: the identity on strings,
`repr` on everything else. -/
def pyStr : Json → String
  | .str s => s
  | v => pyRepr v

/-- Python iteration `for x in v`: lists yield their elements, strings
yield their characters, dicts yield their keys; other values raise
`TypeError`. -/
def pyIterList : Json → Except PyError (List Json)
  | .arr elems => .ok elems
  | .str s => .ok (s.toList.map fun c => Json.str (String.singleton c))
  | .obj fields => .ok (fields.map fun kv => Json.str kv.1)
  | _ => .error .typeError

/-- A Python `datetime`: the wall-clock reading stored as seconds since
1970-01-01 00:00:00 of its own calendar fields (`naiveSec`), together with
the attached zone's UTC offset in seconds (`none` for a naive value). -/
structure PyDatetime where
  naiveSec : Int
  utcOffsetSec : Option Int
deriving DecidableEq

/-- The instant a datetime denotes, in UTC epoch seconds (a naive value is
read as UTC, which is how `datetime_to_utc` treats it). -/
def PyDatetime.utcInstant (d : PyDatetime) : Int :=
  d.naiveSec - d.utcOffsetSec.getD 0

/-- Whether a datetime is timezone-aware with a zero UTC offset. -/
def PyDatetime.isUTC (d : PyDatetime) : Prop :=
  d.utcOffsetSec = some 0

instance (d : PyDatetime) : Decidable d.isUTC := by
  unfold PyDatetime.isUTC; infer_instance

/-- `datetime.timestamp()`: the UNIX timestamp of the instant. This matches
CPython for timezone-aware values; the code applies it only to the aware
result of `str_to_datetime`. The timestamp is integral because the model
carries whole seconds. -/
def PyDatetime.timestamp (d : PyDatetime) : Int :=
  d.utcInstant

/-- Civil date of a day count relative to 1970-01-01 (Gregorian,
days-to-civil direction): `(year, month, day)`. -/
def civilFromDays (z : Int) : Int × Nat × Nat :=
  let zs : Int := z + 719468
  let era : Int := Int.fdiv zs 146097
  let doe : Nat := (Int.fmod zs 146097).toNat
  let yoe : Nat := (doe - doe / 1460 + doe / 36524 - doe / 146096) / 365
  let doy : Nat := doe - (365 * yoe + yoe / 4 - yoe / 100)
  let mp : Nat := (5 * doy + 2) / 153
  let d : Nat := doy - (153 * mp + 2) / 5 + 1
  let m : Nat := if mp < 10 then mp + 3 else mp - 9
  let y : Int := (yoe : Int) + era * 400
  (if m ≤ 2 then y + 1 else y, m, d)

/-- Day count relative to 1970-01-01 of a civil date (civil-to-days
direction of the same Gregorian calendar arithmetic). -/
def daysFromCivil (y : Int) (m d : Nat) : Int :=
  let ya : Int := if m ≤ 2 then y - 1 else y
  let era : Int := Int.fdiv ya 400
  let yoe : Nat := (ya - era * 400).toNat
  let mp : Nat := if m > 2 then m - 3 else m + 9
  let doy : Nat := (153 * mp + 2) / 5 + d - 1
  let doe : Nat := 365 * yoe + yoe / 4 - yoe / 100 + doy
  era * 146097 + (doe : Int) - 719468

/-- Decimal rendering of a natural number left-padded with zeros to width
two, as `strftime` prints months, days, hours, minutes, seconds. -/
def pad2 (n : Nat) : String :=
  if n < 10 then "0" ++ toString n else toString n

/-- Decimal rendering of a year left-padded with zeros to width four. -/
def pad4 (y : Int) : String :=
  if y < 0 then toString y
  else if y < 10 then "000" ++ toString y
  else if y < 100 then "00" ++ toString y
  else if y < 1000 then "0" ++ toString y
  else toString y

/-- `d.strftime("%Y-%m-%d %H:%M:%S")`, the only format the code uses
(functest.py lines 209 and 216): the calendar fields of the wall-clock
reading, formatted. -/
def PyDatetime.strftime (d : PyDatetime) : String :=
  let days : Int := Int.fdiv d.naiveSec 86400
  let secs : Nat := (Int.fmod d.naiveSec 86400).toNat
  let c := civilFromDays days
  pad4 c.1 ++ "-" ++ pad2 c.2.1 ++ "-" ++ pad2 c.2.2 ++ " " ++
    pad2 (secs / 3600) ++ ":" ++ pad2 (secs / 60 % 60) ++ ":" ++ pad2 (secs % 60)

/-- Gregorian leap-year test. -/
def isLeapYear (y : Int) : Bool :=
  (Int.fmod y 4 == 0 && Int.fmod y 100 != 0) || Int.fmod y 400 == 0

/-- Number of days in a month of a given year. -/
def daysInMonth (y : Int) (m : Nat) : Nat :=
  if m = 2 then (if isLeapYear y then 29 else 28)
  else if m = 4 ∨ m = 6 ∨ m = 9 ∨ m = 11 then 30
  else 31

/-- The numeric value of a decimal digit character. -/
def digitVal (c : Char) : Option Nat :=
  if c.isDigit then some (c.toNat - 48) else none

/-- A timezone-aware UTC datetime from calendar fields. -/
def mkUTCDatetime (y : Int) (mo d h mi s : Nat) : PyDatetime :=
  ⟨daysFromCivil y mo d * 86400 + ((h * 3600 + mi * 60 + s : Nat) : Int), some 0⟩

/-- Read one decimal digit from the front of a character stream. -/
def readDigit : List Char → Option (Nat × List Char)
  | c :: rest => do pure ((← digitVal c), rest)
  | [] => none

/-- Read a two-digit decimal number from the front of a stream. -/
def read2 (cs : List Char) : Option (Nat × List Char) := do
  let (a, cs) ← readDigit cs
  let (b, cs) ← readDigit cs
  pure (10 * a + b, cs)

/-- Read a four-digit decimal number from the front of a stream. -/
def read4 (cs : List Char) : Option (Nat × List Char) := do
  let (a, cs) ← read2 cs
  let (b, cs) ← read2 cs
  pure (100 * a + b, cs)

/-- Consume one expected character from the front of a stream. -/
def readChar (c : Char) : List Char → Option (List Char)
  | x :: rest => if x = c then some rest else none
  | [] => none

/-- Consume the date-time separator, a space or a `T`. -/
def readSep : List Char → Option (List Char)
  | x :: rest => if x = ' ' ∨ x = 'T' then some rest else none
  | [] => none

/-- Read the `"YYYY-MM-DD"` date fields from the front of a stream. -/
def parseYmd (cs : List Char) : Option (Nat × Nat × Nat × List Char) := do
  let (y, cs) ← read4 cs
  let cs ← readChar '-' cs
  let (mo, cs) ← read2 cs
  let cs ← readChar '-' cs
  let (d, cs) ← read2 cs
  pure (y, mo, d, cs)

/-- Read the `"HH:MM:SS"` time fields from the front of a stream. -/
def parseHMS (cs : List Char) : Option (Nat × Nat × Nat × List Char) := do
  let (h, cs) ← read2 cs
  let cs ← readChar ':' cs
  let (mi, cs) ← read2 cs
  let cs ← readChar ':' cs
  let (s, cs) ← read2 cs
  pure (h, mi, s, cs)

/-- Field-wise parse of `"YYYY-MM-DD HH:MM:SS"` (also with a `T`
separator), checking calendar validity. -/
def parseYmdHMS (cs : List Char) : Option PyDatetime := do
  let (y, mo, d, cs) ← parseYmd cs
  let cs ← readSep cs
  let (h, mi, s, cs) ← parseHMS cs
  if cs = [] ∧ 1 ≤ mo ∧ mo ≤ 12 ∧ 1 ≤ d ∧ d ≤ daysInMonth (y : Int) mo ∧
      h ≤ 23 ∧ mi ≤ 59 ∧ s ≤ 59 then
    pure (mkUTCDatetime (y : Int) mo d h mi s)
  else
    none

/-- Modelled from the spec: `grimoirelab_toolkit.datetime.str_to_datetime`
(external, not under src/) parses a datetime string into a timezone-aware
datetime, defaulting the zone to UTC when the string carries none; an
unparsable value raises, and a non-string argument fails. The model
accepts the declared `"YYYY-MM-DD HH:MM:SS"` shape (space or `T`
separator) and returns the corresponding UTC instant. -/
def str_to_datetime : Json → Except PyError PyDatetime
  | .str s =>
    match parseYmdHMS s.toList with
    | some dt => .ok dt
    | none => .error .invalidDate
  | _ => .error .typeError

/-- Model of `grimoirelab_toolkit.datetime.datetime_to_utc` (external, not
under src/): a naive datetime is assumed to already be UTC, and the value
is converted to the UTC zone; the denoted instant is unchanged. -/
def datetime_to_utc (d : PyDatetime) : PyDatetime :=
  ⟨d.utcInstant, some 0⟩

/-- Model of `grimoirelab_toolkit.datetime.datetime_utcnow` (external, not
under src/): the current wall-clock time as a UTC-aware datetime; the
clock reading is passed in explicitly. -/
def datetime_utcnow (nowSec : Int) : PyDatetime :=
  ⟨nowSec, some 0⟩

/-- `perceval.utils.DEFAULT_DATETIME` (perceval core, not under src/):
`datetime(1970, 1, 1, tzinfo=tzutc())`, the minimal-epoch sentinel. -/
def DEFAULT_DATETIME : PyDatetime :=
  ⟨0, some 0⟩

/-- `CATEGORY_FUNCTEST` (functest.py line 36). -/
def CATEGORY_FUNCTEST : String := "functest"

/-- `Functest.metadata_id` (functest.py lines 127-131):
`str(item['_id'])`. -/
def Functest.metadata_id (item : Json) : Except PyError String := do
  let v ← pyGetItem item "_id"
  pure (pyStr v)

/-- `Functest.metadata_updated_on` (functest.py lines 133-148): read
`item['start_date']`, parse it with `str_to_datetime`, return the UNIX
timestamp of the result. -/
def Functest.metadata_updated_on (item : Json) : Except PyError Int := do
  let ts ← pyGetItem item "start_date"
  let dt ← str_to_datetime ts
  pure dt.timestamp

/-- `Functest.metadata_category` (functest.py lines 150-157). -/
def Functest.metadata_category (_item : Json) : String :=
  CATEGORY_FUNCTEST

/-- The date-window resolution of `Functest.fetch` (functest.py lines
75-76). `none` models passing Python `None` (which is falsy; a datetime
object is always truthy); the Python parameter default for `from_date` is
`DEFAULT_DATETIME` itself, i.e. `some DEFAULT_DATETIME` here. `nowSec` is
the wall clock read by `datetime_utcnow`. -/
def Functest.fetch_window (from_date to_date : Option PyDatetime)
    (nowSec : Int) : PyDatetime × PyDatetime :=
  (match from_date with
   | some d => datetime_to_utc d
   | none => DEFAULT_DATETIME,
   match to_date with
   | some d => datetime_to_utc d
   | none => datetime_utcnow nowSec)

/-- `Functest.parse_json` (functest.py lines 159-171):
`json.loads(raw_json)` followed by subscripting with `results`. -/
def Functest.parse_json (raw_json : RawPage) : Except PyError Json := do
  let result ← json_loads raw_json
  pyGetItem result "results"

/-- Python `str.strip("/")`: remove leading and trailing slash
characters. -/
def stripSlashes (s : String) : String :=
  String.mk (((s.toList.dropWhile (· = '/')).reverse.dropWhile (· = '/')).reverse)

/-- Model of `grimoirelab_toolkit.uris.urijoin` (external, not under
src/): join the parts with `/` after stripping each part's leading and
trailing slashes. -/
def urijoin (parts : List String) : String :=
  "/".intercalate (parts.map stripSlashes)

/-- `FunctestClient.FUNCTEST_API_PATH` (functest.py line 189). -/
def FunctestClient.FUNCTEST_API_PATH : String := "/api/v1/"

/-- `FunctestClient.RRESULTS` (functest.py line 192). -/
def FunctestClient.RRESULTS : String := "results"

/-- `FunctestClient.PFROM_DATE` (functest.py line 195). -/
def FunctestClient.PFROM_DATE : String := "from"

/-- `FunctestClient.PTO_DATE` (functest.py line 196). -/
def FunctestClient.PTO_DATE : String := "to"

/-- `FunctestClient.PPAGE` (functest.py line 197). -/
def FunctestClient.PPAGE : String := "page"

/-- The query-parameter dictionary built by `FunctestClient.results`
(functest.py lines 210-217): the `from` date string, the optional `to`
date string, and the `page` counter. `page` holds a JSON value because
the loop stores `current_page + 1` read back from a response body. -/
structure Params where
  fromStr : String
  toStr : Option String
  page : Json

/-- The dictionary as key-value pairs in insertion order: `from` and
`page` are present from construction (functest.py lines 210-213), `to` is
appended exactly when a `to_date` was supplied (lines 215-217). -/
def Params.toDict (p : Params) : List (String × Json) :=
  [(FunctestClient.PFROM_DATE, .str p.fromStr),
   (FunctestClient.PPAGE, p.page)] ++
    (match p.toStr with
     | some t => [(FunctestClient.PTO_DATE, .str t)]
     | none => [])

/-- One HTTP request issued by the client. The method is GET — modelled
from the spec: `HttpClient.fetch` (perceval core, not under src/) issues
GET requests for a payload-carrying fetch of this kind. -/
structure Request where
  method : String
  url : String
  params : Params

/-- How one run of the `FunctestClient.results` loop ended. -/
inductive LoopEnd where
  /-- The `break` at functest.py line 230: `current_page >= total_pages`. -/
  | finished
  /-- An exception while decoding a pagination envelope
  (functest.py lines 225-227) or comparing/incrementing its fields. -/
  | failed (e : PyError)
  /-- Model artifact: the finite list of response bodies ran out before
  the loop stopped; the final request is recorded but unanswered. -/
  | exhausted

/-- The observable trace of one `FunctestClient.results` run: every
request issued, every body yielded, and how the loop ended. -/
structure ResultsTrace where
  requests : List Request
  yields : List RawPage
  ending : LoopEnd

/-- Numeric value of a Json scalar under Python arithmetic: booleans are
integers. -/
def pyNumVal : Json → Option Int
  | .num n => some n
  | .bool b => some (if b then 1 else 0)
  | _ => none

/-- Python `a >= b` on envelope values: numbers (and booleans) compare
numerically, strings lexicographically by code point, anything else
raises `TypeError`. -/
def pyGE (a b : Json) : Except PyError Bool :=
  match pyNumVal a, pyNumVal b with
  | some x, some y => .ok (decide (x ≥ y))
  | _, _ =>
    match a, b with
    | .str x, .str y => .ok (! decide (x < y))
    | _, _ => .error .typeError

/-- Python `v + 1` on an envelope value: numbers (and booleans) only. -/
def pyAdd1 (v : Json) : Except PyError Json :=
  match pyNumVal v with
  | some n => .ok (.num (n + 1))
  | none => .error .typeError

/-- The pagination-envelope step run after a body is yielded
(functest.py lines 225-232): decode the body, read
`pagination.current_page` and `pagination.total_pages`, stop when
`current_page >= total_pages`, otherwise produce the next `page`
parameter `current_page + 1`. `none` means stop, `some p` means continue
with `page := p`. -/
def envNext (content : RawPage) : Except PyError (Option Json) := do
  let j ← json_loads content
  let pagination ← pyGetItem j "pagination"
  let page ← pyGetItem pagination "current_page"
  let total_pages ← pyGetItem pagination "total_pages"
  let ge ← pyGE page total_pages
  if ge then
    pure none
  else do
    let p1 ← pyAdd1 page
    pure (some p1)

/-- The request built at the top of each loop iteration (functest.py
lines 220-221): a GET to `urijoin(base_url, FUNCTEST_API_PATH, RRESULTS)`
with the current parameter dictionary as payload. -/
def mkRequest (base : String) (params : Params) : Request :=
  ⟨"GET", urijoin [base, FunctestClient.FUNCTEST_API_PATH,
    FunctestClient.RRESULTS], params⟩

/-- The `while True` loop of `FunctestClient.results` (functest.py lines
219-232), driven by the list of successive response bodies the transport
returns (the n-th request receives the n-th body). Each iteration issues
one request, yields the body, then runs the envelope step: stop, fail, or
mutate only the `page` entry of the parameter dictionary and repeat. -/
def resultsLoop (base : String) (responses : List RawPage)
    (params : Params) : ResultsTrace :=
  match responses with
  | [] => ⟨[mkRequest base params], [], .exhausted⟩
  | content :: rest =>
    match envNext content with
    | .error e => ⟨[mkRequest base params], [content], .failed e⟩
    | .ok none => ⟨[mkRequest base params], [content], .finished⟩
    | .ok (some p1) =>
      let t := resultsLoop base rest { params with page := p1 }
      ⟨mkRequest base params :: t.requests, content :: t.yields, t.ending⟩

/-- `FunctestClient.results` (functest.py lines 206-232): format the
dates, build the parameter dictionary with `from` and `page = 1`, add
`to` when `to_date` is truthy, then run the request loop. -/
def FunctestClient.results (base : String) (from_date : PyDatetime)
    (to_date : Option PyDatetime) (responses : List RawPage) : ResultsTrace :=
  let fdt := from_date.strftime
  let params : Params :=
    { fromStr := fdt
      toStr := to_date.map PyDatetime.strftime
      page := .num 1 }
  resultsLoop base responses params

/-- The page-consuming loop of `Functest.fetch_items` (functest.py lines
102-107): for each raw page, parse it and yield each element of the
parsed value in order. Returns the items yielded before any failure,
paired with the error (if any) that aborted the loop; a generator
delivers the earlier items even when a later page fails. -/
def fetchPagesItems : List RawPage → List Json × Option PyError
  | [] => ([], none)
  | raw :: rest =>
    match Functest.parse_json raw >>= pyIterList with
    | .error e => ([], some e)
    | .ok items =>
      let t := fetchPagesItems rest
      (items ++ t.1, t.2)

/-- `Functest.fetch_items` (functest.py lines 83-109): obtain the pages
from `FunctestClient.results`, then yield each parsed page's elements in
order. Returns the yielded items together with the error (if any) that
ended the iteration; an envelope failure inside the page generator
surfaces only after the items of the pages already yielded. -/
def Functest.fetch_items (base : String) (from_date : PyDatetime)
    (to_date : Option PyDatetime) (responses : List RawPage) :
    List Json × Option PyError :=
  let t := FunctestClient.results base from_date to_date responses
  let r := fetchPagesItems t.yields
  (r.1,
   match r.2 with
   | some e => some e
   | none =>
     match t.ending with
     | .failed e => some e
     | _ => none)

/-- `Functest.fetch` (functest.py lines 63-81): resolve the date window
with `fetch_window`, then run `fetch_items` on it (perceval core
`Backend.fetch` forwards the keyword arguments unchanged). -/
def Functest.fetch (base : String) (from_date to_date : Option PyDatetime)
    (nowSec : Int) (responses : List RawPage) : List Json × Option PyError :=
  let w := Functest.fetch_window from_date to_date nowSec
  Functest.fetch_items base w.1 (some w.2) responses

/-- The `pagination.current_page` field of a response body, as the loop
reads it (functest.py lines 225-226). -/
def envCurrentPage (content : RawPage) : Except PyError Json := do
  let j ← json_loads content
  let pagination ← pyGetItem j "pagination"
  pyGetItem pagination "current_page"

/-- The externally visible unit produced for each Result Record:
identifier, update timestamp, category tag and the original record. -/
structure NormalizedItem where
  identifier : String
  updated_on : Int
  category : String
  payload : Json

/-- Modelled from the spec: the per-record normalization loop of perceval
core `Backend.fetch` (not under src/), which wraps each record yielded by
`fetch_items` into a Normalized Item using `Functest.metadata_id`,
`Functest.metadata_updated_on` and `Functest.metadata_category`; the
first record whose extraction raises aborts the iteration with that
error and nothing is yielded for it or after it. -/
def normalizeRecords : List Json → List NormalizedItem × Option PyError
  | [] => ([], none)
  | r :: rs =>
    match Functest.metadata_id r, Functest.metadata_updated_on r with
    | .ok i, .ok ts =>
      let t := normalizeRecords rs
      (⟨i, ts, Functest.metadata_category r, r⟩ :: t.1, t.2)
    | .error e, _ => ([], some e)
    | .ok _, .error e => ([], some e)

/-! ## Helper lemmas about the request loop -/

theorem resultsLoop_requests_head (base : String) (rs : List RawPage)
    (ps : Params) :
    (resultsLoop base rs ps).requests.head? = some (mkRequest base ps) := by
  cases rs with
  | nil => simp [resultsLoop]
  | cons c rest =>
    cases h : envNext c with
    | error e => simp [resultsLoop, h]
    | ok o => cases o <;> simp [resultsLoop, h]

theorem resultsLoop_requests_shape (base : String) :
    ∀ (rs : List RawPage) (ps : Params) (r : Request),
      r ∈ (resultsLoop base rs ps).requests →
      ∃ pg, r = mkRequest base { ps with page := pg } := by
  intro rs
  induction rs with
  | nil =>
    intro ps r hr
    simp [resultsLoop] at hr
    exact ⟨ps.page, hr⟩
  | cons c rest ih =>
    intro ps r hr
    cases h : envNext c with
    | error e =>
      simp [resultsLoop, h] at hr
      exact ⟨ps.page, hr⟩
    | ok o =>
      cases o with
      | none =>
        simp [resultsLoop, h] at hr
        exact ⟨ps.page, hr⟩
      | some p1 =>
        simp only [resultsLoop, h, List.mem_cons] at hr
        rcases hr with rfl | hr
        · exact ⟨ps.page, rfl⟩
        · obtain ⟨pg, hpg⟩ := ih { ps with page := p1 } r hr
          exact ⟨pg, hpg⟩

theorem resultsLoop_succ_page (base : String) :
    ∀ (rs : List RawPage) (ps : Params) (i : Nat) (r : Request),
      (resultsLoop base rs ps).requests[i + 1]? = some r →
      ∃ c p, (resultsLoop base rs ps).yields[i]? = some c ∧
        envNext c = .ok (some p) ∧ r.params.page = p := by
  intro rs
  induction rs with
  | nil =>
    intro ps i r hr
    simp [resultsLoop] at hr
  | cons c rest ih =>
    intro ps i r hr
    cases h : envNext c with
    | error e => simp [resultsLoop, h] at hr
    | ok o =>
      cases o with
      | none => simp [resultsLoop, h] at hr
      | some p1 =>
        simp only [resultsLoop, h] at hr ⊢
        cases i with
        | zero =>
          rw [List.getElem?_cons_succ] at hr
          have hh := resultsLoop_requests_head base rest { ps with page := p1 }
          rw [List.head?_eq_getElem?] at hh
          rw [hh] at hr
          obtain rfl : mkRequest base { ps with page := p1 } = r :=
            Option.some.inj hr
          exact ⟨c, p1, by simp, h, rfl⟩
        | succ n =>
          rw [List.getElem?_cons_succ] at hr
          obtain ⟨c2, p2, hy, he, hp⟩ := ih { ps with page := p1 } n r hr
          exact ⟨c2, p2, by simpa using hy, he, hp⟩

theorem resultsLoop_terminal (base : String) :
    ∀ (pre : List RawPage) (term : RawPage) (rest : List RawPage) (ps : Params),
      (∀ c ∈ pre, ∃ p, envNext c = .ok (some p)) →
      envNext term = .ok none →
      (resultsLoop base (pre ++ term :: rest) ps).yields = pre ++ [term] ∧
      (resultsLoop base (pre ++ term :: rest) ps).requests.length =
        pre.length + 1 ∧
      (resultsLoop base (pre ++ term :: rest) ps).ending = .finished := by
  intro pre
  induction pre with
  | nil =>
    intro term rest ps _ hterm
    simp [resultsLoop, hterm]
  | cons c pre ih =>
    intro term rest ps hpre hterm
    obtain ⟨p, hp⟩ := hpre c (List.mem_cons_self c pre)
    have ht := ih term rest { ps with page := p }
      (fun x hx => hpre x (List.mem_cons_of_mem c hx)) hterm
    simp only [List.cons_append, resultsLoop, hp]
    exact ⟨by simp [ht.1], by simp [ht.2.1], ht.2.2⟩

/-! ## Helper lemmas about the item loop -/

theorem fetchPagesItems_append_ok (pages : List RawPage)
    (arrays : List (List Json))
    (h : List.Forall₂ (fun c a => Functest.parse_json c = .ok (Json.arr a))
      pages arrays) :
    ∀ more, fetchPagesItems (pages ++ more) =
      (arrays.flatten ++ (fetchPagesItems more).1, (fetchPagesItems more).2) := by
  induction h with
  | nil => intro more; simp
  | cons hpa _ ih =>
    intro more
    simp [List.cons_append, fetchPagesItems, hpa, Bind.bind, Except.bind,
      pyIterList, List.append_eq, ih more, List.append_assoc]

theorem fetchPagesItems_ok (pages : List RawPage) (arrays : List (List Json))
    (h : List.Forall₂ (fun c a => Functest.parse_json c = .ok (Json.arr a))
      pages arrays) :
    fetchPagesItems pages = (arrays.flatten, none) := by
  have := fetchPagesItems_append_ok pages arrays h []
  simpa [fetchPagesItems] using this

/-! ## Helper lemmas about the normalization loop -/

theorem normalizeRecords_append_ok (pre : List Json)
    (hpre : ∀ r ∈ pre, (∃ v, Functest.metadata_id r = .ok v) ∧
      (∃ t, Functest.metadata_updated_on r = .ok t)) :
    ∀ more, normalizeRecords (pre ++ more) =
      ((normalizeRecords pre).1 ++ (normalizeRecords more).1,
        (normalizeRecords more).2) := by
  induction pre with
  | nil => intro more; simp [normalizeRecords]
  | cons r pre ih =>
    intro more
    obtain ⟨⟨v, hv⟩, ⟨t, ht⟩⟩ := hpre r (List.mem_cons_self r pre)
    have ih2 := ih (fun x hx => hpre x (List.mem_cons_of_mem r hx)) more
    simp [List.cons_append, normalizeRecords, hv, ht, List.append_eq, ih2,
      List.append_assoc]

theorem normalizeRecords_length_ok (pre : List Json)
    (hpre : ∀ r ∈ pre, (∃ v, Functest.metadata_id r = .ok v) ∧
      (∃ t, Functest.metadata_updated_on r = .ok t)) :
    (normalizeRecords pre).1.length = pre.length := by
  induction pre with
  | nil => simp [normalizeRecords]
  | cons r pre ih =>
    obtain ⟨⟨v, hv⟩, ⟨t, ht⟩⟩ := hpre r (List.mem_cons_self r pre)
    have ih2 := ih (fun x hx => hpre x (List.mem_cons_of_mem r hx))
    simp [normalizeRecords, hv, ht, ih2]


theorem envNext_some_eq (c : RawPage) (p : Json)
    (h : envNext c = .ok (some p)) :
    ∃ cur x, envCurrentPage c = .ok cur ∧ pyNumVal cur = some x ∧
      p = Json.num (x + 1) := by
  cases c with
  | none => simp [envNext, json_loads, Bind.bind, Except.bind] at h
  | some j =>
    cases hpag : pyGetItem j "pagination" with
    | error e =>
      simp [envNext, json_loads, Bind.bind, Except.bind, hpag] at h
    | ok pag =>
      cases hcur : pyGetItem pag "current_page" with
      | error e =>
        simp [envNext, json_loads, Bind.bind, Except.bind, hpag, hcur] at h
      | ok cur =>
        cases htot : pyGetItem pag "total_pages" with
        | error e =>
          simp [envNext, json_loads, Bind.bind, Except.bind, hpag, hcur,
            htot] at h
        | ok tot =>
          cases hge : pyGE cur tot with
          | error e =>
            simp [envNext, json_loads, Bind.bind, Except.bind, hpag, hcur,
              htot, hge] at h
          | ok ge =>
            cases ge with
            | true =>
              simp [envNext, json_loads, Bind.bind, Except.bind, Pure.pure,
                Except.pure, hpag, hcur, htot, hge] at h
            | false =>
              cases hadd : pyAdd1 cur with
              | error e =>
                simp [envNext, json_loads, Bind.bind, Except.bind, hpag,
                  hcur, htot, hge, hadd] at h
              | ok p1 =>
                have hp1 : p1 = p := by
                  simpa [envNext, json_loads, Bind.bind, Except.bind,
                    Pure.pure, Except.pure, hpag, hcur, htot, hge, hadd]
                    using h
                subst hp1
                unfold pyAdd1 at hadd
                cases hx : pyNumVal cur with
                | none => rw [hx] at hadd; cases hadd
                | some x =>
                  rw [hx] at hadd
                  refine ⟨cur, x, ?_, hx, ?_⟩
                  · simp [envCurrentPage, json_loads, Bind.bind, Except.bind,
                      hpag, hcur]
                  · exact (Except.ok.inj hadd).symm

/-! ## Claims -/

/-- C4: for every item record containing an `_id` field, `metadata_id`
returns `str(record['_id'])` — the string form of the field's value —
irrespective of whether the field holds an integer or a string
(`str()` renders an integer in decimal and is the identity on strings). -/
theorem claim_C4_metadata_id (item v : Json)
    (h : pyGetItem item "_id" = .ok v) :
    Functest.metadata_id item = .ok (pyStr v) ∧
    (∀ n : Int, pyStr (.num n) = toString n) ∧
    (∀ s : String, pyStr (.str s) = s) := by
  refine ⟨?_, fun n => by simp [pyStr, pyRepr], fun s => by simp [pyStr]⟩
  simp [Functest.metadata_id, h, Bind.bind, Except.bind, Pure.pure, Except.pure]

/-- Witness for C4: concrete records whose `_id` holds the integer 42 and
the string "abc". -/
theorem claim_C4_witness :
    Functest.metadata_id (.obj [("_id", .num 42)]) = .ok "42" ∧
    Functest.metadata_id (.obj [("_id", .str "abc")]) = .ok "abc" := by
  constructor
  · have h := claim_C4_metadata_id (.obj [("_id", .num 42)]) (.num 42) rfl
    rw [h.1, h.2.1 42]
    rfl
  · have h := claim_C4_metadata_id (.obj [("_id", .str "abc")]) (.str "abc") rfl
    rw [h.1, h.2.2 "abc"]

/-- C5: for every record with a parsable `start_date` field,
`metadata_updated_on` returns the UNIX timestamp of the datetime parsed
from it, and any two records with identical `start_date` strings get
identical values. -/
theorem claim_C5_updated_on (item1 item2 : Json) (s : String)
    (d : PyDatetime)
    (h1 : pyGetItem item1 "start_date" = .ok (.str s))
    (h2 : pyGetItem item2 "start_date" = .ok (.str s))
    (hd : str_to_datetime (.str s) = .ok d) :
    Functest.metadata_updated_on item1 = .ok d.timestamp ∧
    Functest.metadata_updated_on item1 = Functest.metadata_updated_on item2 := by
  constructor
  · simp [Functest.metadata_updated_on, h1, hd, Bind.bind, Except.bind, Pure.pure, Except.pure]
  · simp [Functest.metadata_updated_on, h1, h2, Bind.bind, Except.bind]

/-- Witness for C5: two records sharing the `start_date`
"2017-01-01 00:00:00", whose UNIX timestamp is 1483228800. -/
theorem claim_C5_witness :
    Functest.metadata_updated_on
      (.obj [("_id", .num 1), ("start_date", .str "2017-01-01 00:00:00")]) =
      .ok 1483228800 ∧
    Functest.metadata_updated_on
      (.obj [("_id", .num 1), ("start_date", .str "2017-01-01 00:00:00")]) =
    Functest.metadata_updated_on
      (.obj [("_id", .num 2), ("start_date", .str "2017-01-01 00:00:00")]) := by
  have h := claim_C5_updated_on
    (.obj [("_id", .num 1), ("start_date", .str "2017-01-01 00:00:00")])
    (.obj [("_id", .num 2), ("start_date", .str "2017-01-01 00:00:00")])
    "2017-01-01 00:00:00" ⟨1483228800, some 0⟩ rfl rfl rfl
  exact ⟨h.1, h.2⟩

/-- C6: in `Functest.fetch`, an omitted or falsy `from_date` resolves to
the minimal-epoch default `DEFAULT_DATETIME` (the parameter default is
`DEFAULT_DATETIME`, and passing `None` selects it explicitly), an omitted
`to_date` resolves to the wall-clock time at call time, and both resolved
dates are normalized to UTC, whatever was passed. -/
theorem claim_C6_fetch_window (from_date to_date : Option PyDatetime)
    (nowSec : Int) :
    (Functest.fetch_window none to_date nowSec).1 = DEFAULT_DATETIME ∧
    (Functest.fetch_window (some DEFAULT_DATETIME) to_date nowSec).1 =
      DEFAULT_DATETIME ∧
    (Functest.fetch_window from_date none nowSec).2 = datetime_utcnow nowSec ∧
    (Functest.fetch_window from_date to_date nowSec).1.isUTC ∧
    (Functest.fetch_window from_date to_date nowSec).2.isUTC := by
  refine ⟨rfl, ?_, ?_, ?_, ?_⟩
  · simp [Functest.fetch_window, datetime_to_utc, DEFAULT_DATETIME,
      PyDatetime.utcInstant]
  · cases from_date <;> rfl
  · cases from_date <;>
      simp [Functest.fetch_window, datetime_to_utc, DEFAULT_DATETIME,
        PyDatetime.isUTC]
  · cases to_date <;>
      simp [Functest.fetch_window, datetime_to_utc, datetime_utcnow,
        PyDatetime.isUTC]

/-- C10: within one `FunctestClient.results` call, the `from` and `to`
query parameters are identical in every page request — after the
parameter dictionary is built, only the `page` entry is ever mutated, so
the date window never changes across pages. -/
theorem claim_C10_window_frame (base : String) (from_date : PyDatetime)
    (to_date : Option PyDatetime) (responses : List RawPage) (r : Request)
    (hr : r ∈ (FunctestClient.results base from_date to_date
      responses).requests) :
    r.params.fromStr = from_date.strftime ∧
    r.params.toStr = to_date.map PyDatetime.strftime := by
  obtain ⟨pg, rfl⟩ := resultsLoop_requests_shape base responses _ r hr
  exact ⟨rfl, rfl⟩

/-- Witness for C10: the single request of a one-page run. -/
theorem claim_C10_witness :
    ∃ r, r ∈ (FunctestClient.results "http://example.com" ⟨0, some 0⟩
        (some ⟨86400, some 0⟩)
        [some (.obj [("results", .arr []), ("pagination",
          .obj [("current_page", .num 1), ("total_pages", .num 1)])])]).requests ∧
      r.params.fromStr = (⟨0, some 0⟩ : PyDatetime).strftime ∧
      r.params.toStr = some (⟨86400, some 0⟩ : PyDatetime).strftime := by
  have hm : mkRequest "http://example.com"
      ⟨(⟨0, some 0⟩ : PyDatetime).strftime,
        some (⟨86400, some 0⟩ : PyDatetime).strftime, .num 1⟩ ∈
      (FunctestClient.results "http://example.com" ⟨0, some 0⟩
        (some ⟨86400, some 0⟩)
        [some (.obj [("results", .arr []), ("pagination",
          .obj [("current_page", .num 1), ("total_pages", .num 1)])])]).requests :=
    List.mem_singleton.mpr rfl
  have h := claim_C10_window_frame "http://example.com" ⟨0, some 0⟩
    (some ⟨86400, some 0⟩) _ _ hm
  exact ⟨_, hm, h.1, h.2⟩

/-- C7: every HTTP request issued by `FunctestClient.results` is a GET to
`<base_url>/api/v1/results` whose query dictionary always carries `from`
(the from_date formatted by the fixed `"%Y-%m-%d %H:%M:%S"` format, never
omitted) and `page`, and carries `to` (formatted identically) exactly
when a `to_date` was supplied. -/
theorem claim_C7_request_shape (base : String) (from_date : PyDatetime)
    (to_date : Option PyDatetime) (responses : List RawPage) (r : Request)
    (hr : r ∈ (FunctestClient.results base from_date to_date
      responses).requests) :
    r.method = "GET" ∧
    r.url = urijoin [base, FunctestClient.FUNCTEST_API_PATH,
      FunctestClient.RRESULTS] ∧
    r.params.toDict.lookup FunctestClient.PFROM_DATE =
      some (.str from_date.strftime) ∧
    r.params.toDict.lookup FunctestClient.PPAGE = some r.params.page ∧
    r.params.toDict.lookup FunctestClient.PTO_DATE =
      to_date.map (fun d => .str d.strftime) := by
  obtain ⟨pg, rfl⟩ := resultsLoop_requests_shape base responses _ r hr
  refine ⟨rfl, rfl, rfl, rfl, ?_⟩
  cases to_date <;> rfl

/-- Witness for C7: the single request of a one-page run with a supplied
`to_date`. -/
theorem claim_C7_witness :
    ∃ r, r ∈ (FunctestClient.results "http://example.com" ⟨0, some 0⟩
        (some ⟨86400, some 0⟩)
        [some (.obj [("results", .arr []), ("pagination",
          .obj [("current_page", .num 2), ("total_pages", .num 2)])])]).requests ∧
      r.method = "GET" ∧
      r.url = "http://example.com/api/v1/results" ∧
      r.params.toDict.lookup "from" =
        some (.str (⟨0, some 0⟩ : PyDatetime).strftime) ∧
      r.params.toDict.lookup "page" = some r.params.page ∧
      r.params.toDict.lookup "to" =
        some (.str (⟨86400, some 0⟩ : PyDatetime).strftime) := by
  have hm : mkRequest "http://example.com"
      ⟨(⟨0, some 0⟩ : PyDatetime).strftime,
        some (⟨86400, some 0⟩ : PyDatetime).strftime, .num 1⟩ ∈
      (FunctestClient.results "http://example.com" ⟨0, some 0⟩
        (some ⟨86400, some 0⟩)
        [some (.obj [("results", .arr []), ("pagination",
          .obj [("current_page", .num 2), ("total_pages", .num 2)])])]).requests :=
    List.mem_singleton.mpr rfl
  have h := claim_C7_request_shape "http://example.com" ⟨0, some 0⟩
    (some ⟨86400, some 0⟩) _ _ hm
  exact ⟨_, hm, h.1, by rw [h.2.1]; rfl, h.2.2.1, h.2.2.2.1, h.2.2.2.2⟩

/-- C1: with from_date ≤ to_date, `fetch_items` yields exactly the
concatenation of the `results` arrays of the pages returned by
`FunctestClient.results`, in page order and in-page order, and the item
count equals the sum of the `results` array lengths across the pages. -/
theorem claim_C1_items_concatenation (base : String)
    (from_date to_date : PyDatetime) (responses : List RawPage)
    (arrays : List (List Json))
    (_hwindow : from_date.utcInstant ≤ to_date.utcInstant)
    (hpages : List.Forall₂
      (fun c a => Functest.parse_json c = .ok (Json.arr a))
      (FunctestClient.results base from_date (some to_date) responses).yields
      arrays) :
    (Functest.fetch_items base from_date (some to_date) responses).1 =
      arrays.flatten ∧
    (Functest.fetch_items base from_date (some to_date) responses).1.length =
      (arrays.map List.length).sum := by
  have h := fetchPagesItems_ok _ arrays hpages
  constructor
  · simp [Functest.fetch_items, h]
  · simp [Functest.fetch_items, h]

/-- Witness for C1: two pages holding one record each; the two items come
out in page order and the count is 1 + 1. -/
theorem claim_C1_witness :
    (Functest.fetch_items "http://example.com" ⟨0, some 0⟩
        (some ⟨86400, some 0⟩)
        [some (.obj [("results", .arr [.str "recA"]), ("pagination",
           .obj [("current_page", .num 1), ("total_pages", .num 2)])]),
         some (.obj [("results", .arr [.str "recB"]), ("pagination",
           .obj [("current_page", .num 2), ("total_pages", .num 2)])])]).1 =
      [.str "recA", .str "recB"] ∧
    (Functest.fetch_items "http://example.com" ⟨0, some 0⟩
        (some ⟨86400, some 0⟩)
        [some (.obj [("results", .arr [.str "recA"]), ("pagination",
           .obj [("current_page", .num 1), ("total_pages", .num 2)])]),
         some (.obj [("results", .arr [.str "recB"]), ("pagination",
           .obj [("current_page", .num 2), ("total_pages", .num 2)])])]).1.length =
      2 := by
  have h := claim_C1_items_concatenation "http://example.com" ⟨0, some 0⟩
    ⟨86400, some 0⟩
    [some (.obj [("results", .arr [.str "recA"]), ("pagination",
       .obj [("current_page", .num 1), ("total_pages", .num 2)])]),
     some (.obj [("results", .arr [.str "recB"]), ("pagination",
       .obj [("current_page", .num 2), ("total_pages", .num 2)])])]
    [[.str "recA"], [.str "recB"]]
    (by simp [PyDatetime.utcInstant])
    (.cons rfl (.cons rfl .nil))
  exact ⟨h.1, h.2⟩

/-- C2: for every response sequence whose earlier pages are non-terminal
and in which some page's envelope reports `current_page ≥ total_pages`,
`FunctestClient.results` terminates immediately after yielding that page:
it yields exactly the pages up to and including it, issues exactly one
request per yielded page and none afterwards (whatever further responses
the server could have produced), and ends through the normal `break`. -/
theorem claim_C2_pagination_terminates (base : String)
    (from_date : PyDatetime) (to_date : Option PyDatetime)
    (pre : List RawPage) (term : RawPage) (rest : List RawPage)
    (hpre : ∀ c ∈ pre, ∃ p, envNext c = .ok (some p))
    (hterm : envNext term = .ok none) :
    (FunctestClient.results base from_date to_date
      (pre ++ term :: rest)).yields = pre ++ [term] ∧
    (FunctestClient.results base from_date to_date
      (pre ++ term :: rest)).requests.length = pre.length + 1 ∧
    (FunctestClient.results base from_date to_date
      (pre ++ term :: rest)).ending = .finished :=
  resultsLoop_terminal base pre term rest _ hpre hterm

/-- Witness for C2: one non-terminal page followed by a page whose
envelope reports `current_page = total_pages = 2` (the inclusive, equality
boundary); a third response is available but never requested. -/
theorem claim_C2_witness :
    (FunctestClient.results "http://example.com" ⟨0, some 0⟩ none
      ([some (.obj [("results", .arr []), ("pagination",
         .obj [("current_page", .num 1), ("total_pages", .num 2)])])] ++
       (some (.obj [("results", .arr []), ("pagination",
         .obj [("current_page", .num 2), ("total_pages", .num 2)])])) ::
       [some (.obj [("results", .arr [.str "never"]), ("pagination",
         .obj [("current_page", .num 3), ("total_pages", .num 3)])])])).yields =
      [some (.obj [("results", .arr []), ("pagination",
         .obj [("current_page", .num 1), ("total_pages", .num 2)])])] ++
      [some (.obj [("results", .arr []), ("pagination",
         .obj [("current_page", .num 2), ("total_pages", .num 2)])])] ∧
    (FunctestClient.results "http://example.com" ⟨0, some 0⟩ none
      ([some (.obj [("results", .arr []), ("pagination",
         .obj [("current_page", .num 1), ("total_pages", .num 2)])])] ++
       (some (.obj [("results", .arr []), ("pagination",
         .obj [("current_page", .num 2), ("total_pages", .num 2)])])) ::
       [some (.obj [("results", .arr [.str "never"]), ("pagination",
         .obj [("current_page", .num 3), ("total_pages", .num 3)])])])).requests.length =
      2 ∧
    (FunctestClient.results "http://example.com" ⟨0, some 0⟩ none
      ([some (.obj [("results", .arr []), ("pagination",
         .obj [("current_page", .num 1), ("total_pages", .num 2)])])] ++
       (some (.obj [("results", .arr []), ("pagination",
         .obj [("current_page", .num 2), ("total_pages", .num 2)])])) ::
       [some (.obj [("results", .arr [.str "never"]), ("pagination",
         .obj [("current_page", .num 3), ("total_pages", .num 3)])])])).ending =
      .finished := by
  have h := claim_C2_pagination_terminates "http://example.com" ⟨0, some 0⟩
    none
    [some (.obj [("results", .arr []), ("pagination",
       .obj [("current_page", .num 1), ("total_pages", .num 2)])])]
    (some (.obj [("results", .arr []), ("pagination",
       .obj [("current_page", .num 2), ("total_pages", .num 2)])]))
    [some (.obj [("results", .arr [.str "never"]), ("pagination",
       .obj [("current_page", .num 3), ("total_pages", .num 3)])])]
    (by
      intro c hc
      rw [List.mem_singleton] at hc
      subst hc
      exact ⟨.num 2, rfl⟩)
    rfl
  exact ⟨h.1, h.2.1, h.2.2⟩

/-- C3 counterexample: the claim says the (n+1)-th request carries
`page = n+1` "regardless of the content of the responses". With a first
response whose envelope reports `current_page = 5` of `total_pages = 10`,
the loop issues a second request carrying `page = 6`, not `page = 2`: the
next `page` parameter is `current_page + 1` read from the response, not
the previous request's page plus one. -/
theorem claim_C3_counterexample :
    ((FunctestClient.results "http://example.com" ⟨0, some 0⟩ none
      [some (.obj [("results", .arr []), ("pagination",
         .obj [("current_page", .num 5), ("total_pages", .num 10)])]),
       some (.obj [("results", .arr []), ("pagination",
         .obj [("current_page", .num 6), ("total_pages", .num 6)])])]).requests.map
      fun r => r.params.page) = [Json.num 1, Json.num 6] ∧
    Json.num 6 ≠ Json.num 2 := by
  refine ⟨rfl, ?_⟩
  simp

/-- C3 amended: within one `FunctestClient.results` call the first request
carries `page = 1`, and every later request carries
`page = (previous response's reported current_page) + 1`. The claimed
arithmetic progression 1, 2, 3, … therefore holds when each response
echoes the requested page number (e.g. two pages with total_pages = 2 get
exactly the requests page=1 then page=2), but not regardless of response
content. -/
theorem claim_C3_page_progression (base : String) (from_date : PyDatetime)
    (to_date : Option PyDatetime) (responses : List RawPage) :
    (∀ r, (FunctestClient.results base from_date to_date
        responses).requests.head? = some r → r.params.page = Json.num 1) ∧
    (∀ i r, (FunctestClient.results base from_date to_date
        responses).requests[i + 1]? = some r →
      ∃ c cur x,
        (FunctestClient.results base from_date to_date
          responses).yields[i]? = some c ∧
        envCurrentPage c = .ok cur ∧ pyNumVal cur = some x ∧
        r.params.page = Json.num (x + 1)) := by
  constructor
  · intro r hr
    have hh := resultsLoop_requests_head base responses
      ⟨from_date.strftime, to_date.map PyDatetime.strftime, .num 1⟩
    obtain rfl := Option.some.inj (hh.symm.trans hr)
    rfl
  · intro i r hr
    obtain ⟨c, p, hy, he, hp⟩ := resultsLoop_succ_page base responses
      ⟨from_date.strftime, to_date.map PyDatetime.strftime, .num 1⟩ i r hr
    obtain ⟨cur, x, hcur, hx, rfl⟩ := envNext_some_eq c p he
    exact ⟨c, cur, x, hy, hcur, hx, hp⟩

/-- Witness for C3 (amended): in the counterexample run, the first
request carries page 1, and the second request's page is the first
response's reported `current_page` (5) plus one. -/
theorem claim_C3_witness :
    ((mkRequest "http://example.com"
        ⟨(⟨0, some 0⟩ : PyDatetime).strftime, none, Json.num 1⟩).params.page =
      Json.num 1) ∧
    ∃ c cur x,
      (FunctestClient.results "http://example.com" ⟨0, some 0⟩ none
        [some (.obj [("results", .arr []), ("pagination",
           .obj [("current_page", .num 5), ("total_pages", .num 10)])]),
         some (.obj [("results", .arr []), ("pagination",
           .obj [("current_page", .num 6), ("total_pages", .num 6)])])]).yields[0]? =
        some c ∧
      envCurrentPage c = .ok cur ∧ pyNumVal cur = some x ∧
      (mkRequest "http://example.com"
        ⟨(⟨0, some 0⟩ : PyDatetime).strftime, none, Json.num 6⟩).params.page =
        Json.num (x + 1) := by
  have h := claim_C3_page_progression "http://example.com" ⟨0, some 0⟩ none
    [some (.obj [("results", .arr []), ("pagination",
       .obj [("current_page", .num 5), ("total_pages", .num 10)])]),
     some (.obj [("results", .arr []), ("pagination",
       .obj [("current_page", .num 6), ("total_pages", .num 6)])])]
  exact ⟨h.1 _ rfl, h.2 0 _ rfl⟩

/-- C8: a Result Record lacking `_id` or `start_date`, or whose
`start_date` cannot be parsed, is fatal for the whole call: every record
before it produces exactly one Normalized Item, no item is produced for
the failing record (no silent skip), the loop stops with the raised error
(`KeyError` for the missing field, the invalid-date error for an
unparsable timestamp — the spec's MissingField / MalformedTimestamp), and
nothing after the failing record is yielded, whatever follows it. -/
theorem claim_C8_record_failure_fatal (pre : List Json) (bad : Json)
    (rest : List Json)
    (hpre : ∀ r ∈ pre, (∃ v, Functest.metadata_id r = .ok v) ∧
      (∃ t, Functest.metadata_updated_on r = .ok t))
    (hbad : pyGetItem bad "_id" = .error (.keyError "_id") ∨
      pyGetItem bad "start_date" = .error (.keyError "start_date") ∨
      ∃ s, pyGetItem bad "start_date" = .ok (.str s) ∧
        str_to_datetime (.str s) = .error .invalidDate) :
    ∃ e, normalizeRecords (pre ++ bad :: rest) =
        ((normalizeRecords pre).1, some e) ∧
      (normalizeRecords pre).1.length = pre.length := by
  have hbad2 : ∃ e, normalizeRecords (bad :: rest) = ([], some e) := by
    rcases hbad with h | h | ⟨s, hs, hp⟩
    · refine ⟨.keyError "_id", ?_⟩
      simp [normalizeRecords, Functest.metadata_id, h, Bind.bind,
        Except.bind]
    · cases hid : Functest.metadata_id bad with
      | error e => exact ⟨e, by simp [normalizeRecords, hid]⟩
      | ok v =>
        refine ⟨.keyError "start_date", ?_⟩
        simp [normalizeRecords, hid, Functest.metadata_updated_on, h,
          Bind.bind, Except.bind]
    · cases hid : Functest.metadata_id bad with
      | error e => exact ⟨e, by simp [normalizeRecords, hid]⟩
      | ok v =>
        refine ⟨.invalidDate, ?_⟩
        simp [normalizeRecords, hid, Functest.metadata_updated_on, hs, hp,
          Bind.bind, Except.bind]
  obtain ⟨e, he⟩ := hbad2
  refine ⟨e, ?_, normalizeRecords_length_ok pre hpre⟩
  rw [normalizeRecords_append_ok pre hpre (bad :: rest), he]
  simp

/-- Witness for C8: a good record, then a record lacking `start_date`,
then another good record that is never reached; exactly one item comes
out, with an error. -/
theorem claim_C8_witness :
    ∃ e, normalizeRecords
        ([.obj [("_id", .num 1), ("start_date", .str "2017-01-01 00:00:00")]] ++
          (.obj [("_id", .num 2)]) ::
          [.obj [("_id", .num 3), ("start_date", .str "2017-01-01 00:00:05")]]) =
        ((normalizeRecords
          [.obj [("_id", .num 1), ("start_date", .str "2017-01-01 00:00:00")]]).1,
          some e) ∧
      (normalizeRecords
        [.obj [("_id", .num 1), ("start_date", .str "2017-01-01 00:00:00")]]).1.length =
        1 := by
  exact claim_C8_record_failure_fatal
    [.obj [("_id", .num 1), ("start_date", .str "2017-01-01 00:00:00")]]
    (.obj [("_id", .num 2)])
    [.obj [("_id", .num 3), ("start_date", .str "2017-01-01 00:00:05")]]
    (by
      intro r hr
      rw [List.mem_singleton] at hr
      subst hr
      exact ⟨⟨_, rfl⟩, ⟨_, rfl⟩⟩)
    (Or.inr (Or.inl rfl))

/-- C9 counterexample: the claim says a page whose top-level object lacks
"a `results` key holding an array" fails to parse and yields no items.
On a page whose `results` key holds the string "ab", `parse_json`
succeeds (no type check is performed) and the item loop even yields the
string's characters as items, with no error. -/
theorem claim_C9_counterexample :
    Functest.parse_json
      (some (.obj [("results", .str "ab"), ("pagination",
        .obj [("current_page", .num 1), ("total_pages", .num 1)])])) =
      .ok (.str "ab") ∧
    fetchPagesItems
      [some (.obj [("results", .str "ab"), ("pagination",
        .obj [("current_page", .num 1), ("total_pages", .num 1)])])] =
      ([.str "a", .str "b"], none) := by
  exact ⟨rfl, rfl⟩

/-- C9 amended: for every raw page payload that is not valid JSON, or
whose top-level JSON object lacks a `results` key, parsing fails (with
the JSON decode error or the `KeyError` for `results` — the code's form
of MalformedResponse) and the fetch call aborts at that page: items from
earlier pages stand, and no item is produced from the failing page or any
later one. A `results` key holding a non-array value is, however, not
rejected by parsing: the value is returned unchanged and handed to
iteration (see the counterexample). -/
theorem claim_C9_parse_failure_aborts (pre : List RawPage) (bad : RawPage)
    (rest : List RawPage) (arrays : List (List Json))
    (hpre : List.Forall₂
      (fun c a => Functest.parse_json c = .ok (Json.arr a)) pre arrays)
    (hbad : bad = none ∨ ∃ fields, bad = some (.obj fields) ∧
      fields.lookup "results" = none) :
    ∃ e, Functest.parse_json bad = .error e ∧
      fetchPagesItems (pre ++ bad :: rest) = (arrays.flatten, some e) := by
  have hb : ∃ e, Functest.parse_json bad = .error e := by
    rcases hbad with rfl | ⟨fields, rfl, hf⟩
    · exact ⟨.jsonDecodeError, rfl⟩
    · refine ⟨.keyError "results", ?_⟩
      simp [Functest.parse_json, json_loads, pyGetItem, hf, Bind.bind,
        Except.bind]
  obtain ⟨e, he⟩ := hb
  refine ⟨e, he, ?_⟩
  rw [fetchPagesItems_append_ok pre arrays hpre (bad :: rest)]
  simp [fetchPagesItems, he, Bind.bind, Except.bind]

/-- Witness for C9 (amended): a good page, then a decodable page lacking
`results`, then a good page that contributes nothing; the first page's
record is the only item and the call ends with the `results` KeyError. -/
theorem claim_C9_witness :
    ∃ e, Functest.parse_json
        (some (.obj [("pagination",
          .obj [("current_page", .num 2), ("total_pages", .num 2)])])) =
        .error e ∧
      fetchPagesItems
        ([some (.obj [("results", .arr [.str "recA"]), ("pagination",
           .obj [("current_page", .num 1), ("total_pages", .num 2)])])] ++
         (some (.obj [("pagination",
           .obj [("current_page", .num 2), ("total_pages", .num 2)])])) ::
         [some (.obj [("results", .arr [.str "recB"]), ("pagination",
           .obj [("current_page", .num 3), ("total_pages", .num 3)])])]) =
        ([[.str "recA"]].flatten, some e) := by
  exact claim_C9_parse_failure_aborts
    [some (.obj [("results", .arr [.str "recA"]), ("pagination",
      .obj [("current_page", .num 1), ("total_pages", .num 2)])])]
    (some (.obj [("pagination",
      .obj [("current_page", .num 2), ("total_pages", .num 2)])]))
    [some (.obj [("results", .arr [.str "recB"]), ("pagination",
      .obj [("current_page", .num 3), ("total_pages", .num 3)])])]
    [[.str "recA"]]
    (.cons rfl .nil)
    (Or.inr ⟨_, rfl, rfl⟩)
